import Mathlib

/-!
Shallow embedding of parts of Intel LibXPUInfo (LibXPUInfo.cpp, LibXPUInfo.h,
LibXPUInfo_Util.h, LibXPUInfo_JSON.cpp, LibXPUInfo_TelemetryTracker.cpp and
friends) together with theorems about the embedded operations.

Machine integers are modelled as Nat (UI32/UI64 values) or Int (I32/I64
values); overflow is written explicitly where it matters.  Fallible code is
modelled with Option/Except.  The default error handler of the library
(ErrorHandlerDefault, LibXPUInfo.cpp line 47) throws, so a failed
XPUINFO_REQUIRE is modelled as Except.error.
-/

/-- Version record held by DeviceDriverVersion (LibXPUInfo.h lines 301-323):
a 64-bit packed raw version plus a validity flag. -/
structure DeviceDriverVersion where
  mRawVersion : Nat
  mValid : Bool
  deriving DecidableEq, Repr

/-- Embeds the constructor DeviceDriverVersion(uint64_t inRawVersion)
(LibXPUInfo.h line 306): stores the raw value, marks the version valid. -/
def DeviceDriverVersion.ofRaw (raw : Nat) : DeviceDriverVersion :=
  ⟨raw % 2 ^ 64, true⟩

/-- Embeds GetAsUI64 (LibXPUInfo.h line 313). -/
def DeviceDriverVersion.GetAsUI64 (v : DeviceDriverVersion) : Nat :=
  v.mRawVersion

/-- Embeds DeviceDriverVersion::GetMax (LibXPUInfo.cpp lines 559-563):
the static sentinel constructed from XI::UI64(0xffffffff). -/
def DeviceDriverVersion.GetMax : DeviceDriverVersion :=
  DeviceDriverVersion.ofRaw 0xffffffff

/-- Embeds DeviceDriverVersion::GetMin (LibXPUInfo.cpp lines 565-569):
the static sentinel constructed from XI::UI64(0). -/
def DeviceDriverVersion.GetMin : DeviceDriverVersion :=
  DeviceDriverVersion.ofRaw 0

/-- Embeds DeviceDriverVersion::CompareGE (LibXPUInfo.cpp lines 620-629).
The body reads the two low 16-bit fields of both operands and never
consults mValid. -/
def DeviceDriverVersion.CompareGE (l r : DeviceDriverVersion) : Bool :=
  let inBuildNumberLast4Digits := r.mRawVersion &&& 0x000000000000FFFF
  let last4ge : Bool := decide ((l.mRawVersion &&& 0x000000000000FFFF) ≥ inBuildNumberLast4Digits)
  let curRelease := (l.mRawVersion &&& 0x00000000FFFF0000) >>> 16
  let inReleaseField := (r.mRawVersion &&& 0x00000000FFFF0000) >>> 16
  decide (curRelease > inReleaseField) || (decide (curRelease ≥ inReleaseField) && last4ge)

/-- Embeds DeviceDriverVersion::InRange (LibXPUInfo.cpp lines 571-584).
Each XPUINFO_REQUIRE on a validity flag calls the error handler, which by
default throws; this is modelled as Except.error carrying the asserted
expression text. -/
def DeviceDriverVersion.InRange (v : DeviceDriverVersion)
    (range : DeviceDriverVersion × DeviceDriverVersion) : Except String Bool :=
  if !v.mValid then .error "mValid"
  else if !range.1.mValid then .error "range.first.mValid"
  else if !range.2.mValid then .error "range.second.mValid"
  else if v.CompareGE range.1 && range.2.CompareGE v then .ok true
  else .ok false

/-- Embeds DeviceDriverVersion::GetAsString (LibXPUInfo.cpp lines 586-601):
prints the four 16-bit fields of the raw version, high to low, separated by
dots, or the string InvalidVersion when the validity flag is unset. -/
def DeviceDriverVersion.GetAsString (v : DeviceDriverVersion) : String :=
  if v.mValid then
    toString ((v.mRawVersion &&& 0xFFFF000000000000) >>> (16 * 3)) ++ "." ++
    toString ((v.mRawVersion &&& 0x0000FFFF00000000) >>> (16 * 2)) ++ "." ++
    toString ((v.mRawVersion &&& 0x00000000FFFF0000) >>> (16 * 1)) ++ "." ++
    toString (v.mRawVersion &&& 0x000000000000FFFF)
  else "InvalidVersion"

/-- Embeds std::string::find(c, pos): index of the first occurrence of c at
position pos or later, or none. -/
def strFindFrom (c : Char) (s : List Char) (pos : Nat) : Option Nat :=
  ((s.drop pos).findIdx? (fun x => x == c)).map (fun i => i + pos)

/-- Embeds the while(1) loop of countNumChar (LibXPUInfo.cpp lines 502-520)
with explicit fuel.  The C++ loop advances pos only when the found position
is strictly greater than pos; when find returns pos itself the state does
not change and the loop never exits, which the model reports as none once
the fuel runs out. -/
def countNumCharLoop (c : Char) (s : List Char) : Nat → Nat → Nat → Option Nat
  | 0, _, _ => none
  | fuel + 1, numMatch, pos =>
    match strFindFrom c s pos with
    | none => some numMatch
    | some newPos =>
      if newPos > pos then countNumCharLoop c s fuel (numMatch + 1) (newPos + 1)
      else countNumCharLoop c s fuel numMatch pos

/-- Embeds countNumChar (LibXPUInfo.cpp lines 502-520).  Fuel length+1 is
enough for every terminating run of the C++ loop, because each iteration
that makes progress moves pos strictly forward inside the string; a result
of none means the C++ loop runs forever. -/
def countNumChar (c : Char) (s : List Char) : Option Nat :=
  countNumCharLoop c s (s.length + 1) 0 0

/-- Whitespace test used by formatted istream extraction (C locale). -/
def isStreamWS (c : Char) : Bool :=
  c == ' ' || c == '\t' || c == '\n' || c == '\r' || c == '\x0b' || c == '\x0c'

/-- State of a std::istringstream: remaining characters plus the failbit and
badbit.  Nothing in the modelled code ever sets the badbit (it would require
stream corruption), matching the C++ behaviour of istringstream over a
plain string buffer. -/
structure IStream where
  chars : List Char
  fail : Bool
  bad : Bool
  deriving Repr

/-- Drops leading whitespace, as the sentry of formatted extraction does. -/
def dropStreamWS : List Char → List Char
  | [] => []
  | c :: cs => if isStreamWS c then dropStreamWS cs else c :: cs

/-- Splits a greedy run of leading decimal digits from the rest. -/
def takeDigits : List Char → List Char × List Char
  | [] => ([], [])
  | c :: cs =>
    if c.isDigit then
      let (d, r) := takeDigits cs
      (c :: d, r)
    else ([], c :: cs)

/-- Decimal value of a digit string. -/
def digitsToNat (ds : List Char) : Nat :=
  ds.foldl (fun a c => a * 10 + (c.toNat - 48)) 0

/-- Embeds istr >> (uint16_t target).  Returns the new stream state and the
value stored into the target: none means the target is left unchanged (the
sentry failed on an already-failed stream); a failed fresh extraction stores
0 and an overflowing one stores 65535, per C++11 semantics. -/
def IStream.extractU16 (s : IStream) : IStream × Option Nat :=
  if s.fail || s.bad then ({ s with fail := true }, none)
  else
    let rest := dropStreamWS s.chars
    let (ds, r) := takeDigits rest
    if ds.isEmpty then (⟨r, true, s.bad⟩, some 0)
    else
      let n := digitsToNat ds
      if n > 65535 then (⟨r, true, s.bad⟩, some 65535)
      else (⟨r, s.fail, s.bad⟩, some n)

/-- Embeds istr >> (char target): skips whitespace and reads one character;
none means the target is left unchanged (extraction failed). -/
def IStream.extractChar (s : IStream) : IStream × Option Char :=
  if s.fail || s.bad then ({ s with fail := true }, none)
  else
    match dropStreamWS s.chars with
    | [] => (⟨[], true, s.bad⟩, none)
    | c :: cs => (⟨cs, s.fail, s.bad⟩, some c)

/-- Embeds the word-reading for-loop of DeviceDriverVersion::FromString
(LibXPUInfo.cpp lines 533-544), iterating once per remaining word slot.
sep holds the last successfully extracted separator (it is uninitialized
in the C++ until the first successful extraction); a slot that is never
written keeps the zero the vector was resized with. -/
def fromStringLoop : Nat → IStream → Option Char → List Nat → IStream × List Nat
  | 0, istr, _, acc => (istr, acc)
  | k + 1, istr, sep, acc =>
    if istr.bad then (istr, acc ++ List.replicate (k + 1) 0)
    else
      let (istr2, c?) := istr.extractChar
      let sepVal := match c? with
        | some c => some c
        | none => sep
      if sepVal == some '.' && !istr2.bad then
        let (istr3, v?) := istr2.extractU16
        let w := match v? with
          | some v => v
          | none => 0
        fromStringLoop k istr3 sepVal (acc ++ [w])
      else
        fromStringLoop k istr2 sepVal (acc ++ [0])

/-- Embeds DeviceDriverVersion::FromString (LibXPUInfo.cpp lines 522-557).
Returns none when the helper countNumChar does not terminate (see
countNumCharLoop); otherwise packs the parsed words, highest first, 16 bits
each, and returns an invalid version (the LUID{} constructor path, raw 0,
valid false) when the stream went bad. -/
def DeviceDriverVersion.FromString (version : String) : Option DeviceDriverVersion :=
  match countNumChar '.' version.toList with
  | none => none
  | some numDots =>
    let istr0 : IStream := ⟨version.toList, false, false⟩
    let (istr1, v0?) := istr0.extractU16
    let w0 := match v0? with
      | some v => v
      | none => 0
    let (istrF, verWords) := fromStringLoop numDots istr1 none [w0]
    if !istrF.bad then
      some (DeviceDriverVersion.ofRaw (verWords.foldl (fun a w => (a <<< 16) ||| w) 0))
    else
      some ⟨0, false⟩

/-- Embeds the merge rule updateIfNotZero (LibXPUInfo_Util.h lines 35-42),
instantiated at the signed integer types it is used with: the incoming value
overwrites the destination only when the incoming value is nonzero. -/
def updateIfNotZero (dst src : Int) : Int :=
  if src ≠ 0 then src else dst

/-- Embeds the merge rule updateIfDstNotSet (LibXPUInfo_Util.h lines 44-51):
the incoming value wins only when the destination still holds the sentinel
T(-1). -/
def updateIfDstNotSet (dst src : Int) : Int :=
  if dst = -1 then src else dst

/-- Embeds the merge rule updateIfDstVal (LibXPUInfo_Util.h lines 53-60):
the incoming value overwrites only when the destination equals the given
prior value. -/
def updateIfDstVal (dst isVal src : Int) : Int :=
  if dst = isVal then src else dst

/-! APIType bit values (LibXPUInfo.h lines 238-252). -/

def API_TYPE_UNKNOWN : Nat := 0
def API_TYPE_DXGI : Nat := 1
def API_TYPE_DX11_INTEL_PERF_COUNTER : Nat := 2
def API_TYPE_IGCL : Nat := 4
def API_TYPE_OPENCL : Nat := 8
def API_TYPE_LEVELZERO : Nat := 16
def API_TYPE_SETUPAPI : Nat := 32
def API_TYPE_DXCORE : Nat := 64
def API_TYPE_NVML : Nat := 128
def API_TYPE_METAL : Nat := 256
def API_TYPE_WMI : Nat := 512
def API_TYPE_DESERIALIZED : Nat := 1024

/-- Row of the static generation-name table (struct GenName, LibXPUInfo.cpp
lines 116-121): legacy generation id, marketing name, optional inf-file
name, and packed ip-version (the first union member, value-initialized to 0
when a row gives no initializer for it). -/
structure GenName where
  gen : Nat
  name : String
  infName : Option String
  ipVersion : Nat
  deriving DecidableEq, Repr

/-- Embeds the static table S_GenNameMap (LibXPUInfo.cpp lines 190-214) in
source order. -/
def S_GenNameMap : List GenName :=
  [⟨0x0e, "Haswell", none, 0⟩, ⟨0x10, "Broadwell", none, 0⟩,
   ⟨0x12, "Sky Lake", none, 0⟩, ⟨0x13, "Kaby Lake", none, 0⟩,
   ⟨0x14, "Coffee Lake", none, 0⟩,
   ⟨0x1d, "Ice Lake", none, 0⟩,
   ⟨0x21, "Tiger Lake", some "iTGLD", 0x3000000⟩,
   ⟨0x23, "Rocket Lake", some "iRKLD", 0x3004000⟩,
   ⟨0x24, "Raptor Lake S", some "iRPLSD", 0x3008000⟩,
   ⟨0x24, "Alder Lake S", some "iADLSD", 0x3008000⟩,
   ⟨0x25, "Raptor Lake P", some "iRPLPD", 0x3008000⟩,
   ⟨0x25, "Alder Lake P", some "iADLPD", 0x3008000⟩,
   ⟨1210, "DG1", none, 0⟩,
   ⟨1270, "DG2", some "iDG2D", 0x30dc008⟩,
   ⟨1272, "Meteor Lake", some "iMTL", 0x311c004⟩,
   ⟨1272, "Meteor Lake", some "MTL_IAG", 0x311c004⟩,
   ⟨1273, "Arrow Lake", some "iARL", 0x3118004⟩,
   ⟨1274, "Battlemage", some "BMG_", 0x5004000⟩,
   ⟨1275, "Lunar Lake", some "iLNL", 0x5010001⟩,
   ⟨1275, "Lunar Lake", some "LNL_", 0x5010001⟩,
   ⟨1275, "Lunar Lake", some "LNL_", 0x5010004⟩,
   ⟨1300, "Panther Lake", some "PTL_", 0x07800004⟩,
   ⟨0x80000000, "NPU2.7", some "mtl_w", 0⟩,
   ⟨0x80000000, "NPU2.7", some "NPU2_7", 0⟩,
   ⟨0x80000002, "NPU4", some "NPU4", 0⟩,
   ⟨0x80000003, "NPU5", some "NPU5", 0⟩]

/-- Embeds the static table S_nVArchNames (LibXPUInfo.cpp lines 231-243);
std::unordered_map lookup by key is order-independent, so an association
list suffices. -/
def S_nVArchNames : List (Nat × String) :=
  [(2, "Kepler"), (3, "Maxwell"), (4, "Pascal"), (5, "Volta"), (6, "Turing"),
   (7, "Ampere"), (8, "Ada"), (9, "Hopper"), (10, "Blackwell"), (11, "Orin")]

/-- Embeds the downward index loop for (int i = N-1; i >= 0; --i) used by
getDeviceGenerationName: the argument is the number of rows still to scan,
so fuel i+1 inspects row i first. -/
def scanGenTableDown (table : List GenName) (key : GenName → Nat) (id : Nat) :
    Nat → Option String
  | 0 => none
  | i + 1 =>
    match table[i]? with
    | none => scanGenTableDown table key id i
    | some row =>
      if key row = id then some row.name else scanGenTableDown table key id i

/-- Embeds DeviceProperties::getDeviceGenerationName (LibXPUInfo.cpp lines
883-914), with the device generation id taken as its UI32 bit pattern (the
C++ casts the I32 member to UI32 before comparing). -/
def getDeviceGenerationName (DeviceGenerationAPI : Nat) (DeviceGenerationID : Nat) :
    Option String :=
  if DeviceGenerationAPI = API_TYPE_DX11_INTEL_PERF_COUNTER ∨
      DeviceGenerationAPI = API_TYPE_SETUPAPI then
    scanGenTableDown S_GenNameMap GenName.gen DeviceGenerationID S_GenNameMap.length
  else if DeviceGenerationAPI = API_TYPE_OPENCL ∨
      DeviceGenerationAPI = API_TYPE_LEVELZERO then
    scanGenTableDown S_GenNameMap GenName.ipVersion DeviceGenerationID S_GenNameMap.length
  else if DeviceGenerationAPI = API_TYPE_NVML then
    (S_nVArchNames.lookup DeviceGenerationID)
  else none

/-! UMAType values (LibXPUInfo.h lines 279-281) and vendor ids
(LibXPUInfo.h lines 401-402). -/

def UMA_UNKNOWN : Nat := 0
def UMA_INTEGRATED : Nat := 1
def NONUMA_DISCRETE : Nat := 2

def kVendorId_Intel : Nat := 0x8086
def kVendorId_nVidia : Nat := 0x10de

/-- DXGI_ADAPTER_DESC1 as used by the library.  Description is the 128-wide
WCHAR array, modelled as a character list; AdapterLuid is the 64-bit LUID
bit pattern (LuidToUI64). -/
structure DXGI_ADAPTER_DESC1 where
  Description : List Char
  VendorId : Nat
  DeviceId : Nat
  SubSysId : Nat
  Revision : Nat
  DedicatedVideoMemory : Nat
  DedicatedSystemMemory : Nat
  SharedSystemMemory : Nat
  AdapterLuid : Nat
  Flags : Nat
  deriving DecidableEq, Repr

/-- PCIAddressType (LibXPUInfo.h lines 348-363); the default constructor
sets every field to UI32(-1). -/
structure PCIAddressType where
  domain : Nat
  bus : Nat
  device : Nat
  function : Nat
  deriving DecidableEq, Repr

/-- Default-constructed PCIAddressType. -/
def PCIAddressType.default : PCIAddressType :=
  ⟨0xFFFFFFFF, 0xFFFFFFFF, 0xFFFFFFFF, 0xFFFFFFFF⟩

/-- DriverInfo (LibXPUInfo.h lines 365-381).  The wide strings are modelled
as Lean strings (the UTF conversions used by serialize/deserialize round
trip); the two FILETIMEs are modelled by their 64-bit bit patterns
(reinterpretAsUI64). -/
structure DriverInfo where
  DriverDesc : String
  DeviceDesc : String
  DriverVersion : String
  DriverInfSection : String
  DeviceInstanceId : String
  LocationInfo : PCIAddressType
  DriverDate : Nat
  InstallDate : Nat
  deriving DecidableEq, Repr

/-- DeviceProperties (LibXPUInfo.h lines 405-488).  Unsigned members are
Nat, signed members are Int.  VendorFlags is kept as its UI32 view;
VendorSpecific keeps the nVidia cuda pair (the only member of the union the
modelled code touches); IsHighPerformance, IsMinimumPower and IsDetachable
are the I8 flags.  VideoMode and RefreshRate (WMI-only, never serialized,
deserialized or compared) and the derived bandwidth members are omitted. -/
structure DeviceProperties where
  dxgiDesc : DXGI_ADAPTER_DESC1
  pDriverInfo : Option DriverInfo
  DedicatedMemorySize : Nat
  SharedMemorySize : Nat
  MemoryBandWidthMax : Int
  PCIDeviceGen : Int
  PCIDeviceWidth : Int
  PCICurrentGen : Int
  PCICurrentWidth : Int
  PCIAddress : PCIAddressType
  UMA : Nat
  FreqMaxMHz : Int
  FreqMinMHz : Int
  DeviceGenerationID : Int
  DeviceIPVersion : Nat
  DeviceGenerationAPI : Nat
  NumComputeUnits : Int
  ComputeUnitSIMDWidth : Int
  PackageTDP : Int
  MediaFreqMaxMHz : Int
  MediaFreqMinMHz : Int
  MemoryFreqMaxMHz : Int
  MemoryFreqMinMHz : Int
  VendorFlagsUI32 : Nat
  cudaComputeCapability_Major : Int
  cudaComputeCapability_Minor : Int
  IsHighPerformance : Int
  IsMinimumPower : Int
  IsDetachable : Int
  deriving DecidableEq, Repr

/-- Device (LibXPUInfo.h lines 536-620): adapter index, device type,
bitmask of APIs that contributed, driver version (m_pDriverVersion, always
set by the constructor used for live and deserialized devices), and the
property bag. -/
structure Device where
  m_adapterIndex : Nat
  m_type : Nat
  validAPIs : Nat
  driverVersion : DeviceDriverVersion
  m_props : DeviceProperties
  deriving DecidableEq, Repr

/-- Embeds Device::getLUID (LibXPUInfo.h line 547). -/
def Device.getLUID (d : Device) : Nat :=
  d.m_props.dxgiDesc.AdapterLuid

/-- Embeds Device::name (LibXPUInfo.h line 546): the dxgiDesc
Description. -/
def Device.name (d : Device) : List Char :=
  d.m_props.dxgiDesc.Description

/-- XPUInfo registry state relevant to the modelled operations: the used-API
mask and the device map.  std::map<UI64, DevicePtr> iterates in strictly
ascending key order, so the map is modelled as an association list whose
well-formed instances are sorted by key.  (CPU device, runtime versions,
system info and memory info are not consulted by any modelled
operation.) -/
structure XPUInfo where
  m_UsedAPIs : Nat
  m_Devices : List (Nat × Device)
  deriving Repr

/-- Embeds XPUInfo::finalInitDXGI (LibXPUInfo.cpp lines 768-789): one pass
over the device map; for a device whose UMA is still UMA_UNKNOWN, dedicated
video memory at most 256 MB together with shared system memory at least
2 GB marks it UMA_INTEGRATED, otherwise dedicated video memory at least
2 GB marks it NONUMA_DISCRETE. -/
def finalInitDXGI (devs : List (Nat × Device)) : List (Nat × Device) :=
  let k256MB : Nat := 256 * 1024 * 1024
  let k2GB : Nat := 2 * 1024 * 1024 * 1024
  devs.map (fun p =>
    if p.2.m_props.UMA = UMA_UNKNOWN then
      if p.2.m_props.dxgiDesc.DedicatedVideoMemory ≤ k256MB ∧
          p.2.m_props.dxgiDesc.SharedSystemMemory ≥ k2GB then
        (p.1, { p.2 with m_props := { p.2.m_props with UMA := UMA_INTEGRATED } })
      else if p.2.m_props.dxgiDesc.DedicatedVideoMemory ≥ k2GB then
        (p.1, { p.2 with m_props := { p.2.m_props with UMA := NONUMA_DISCRETE } })
      else p
    else p)

/-- Claim-side classification for C3, written from the spec text: infer the
memory-architecture class only when still unset, from the two fixed
thresholds, and otherwise keep the existing value. -/
def umaClassOfClaim (d : Device) : Nat :=
  if d.m_props.UMA ≠ UMA_UNKNOWN then d.m_props.UMA
  else if d.m_props.dxgiDesc.DedicatedVideoMemory ≤ 256 * 1024 * 1024 ∧
      d.m_props.dxgiDesc.SharedSystemMemory ≥ 2 * 1024 * 1024 * 1024 then UMA_INTEGRATED
  else if d.m_props.dxgiDesc.DedicatedVideoMemory ≥ 2 * 1024 * 1024 * 1024 then NONUMA_DISCRETE
  else UMA_UNKNOWN

/-- Embeds std::tolower / std::towlower in the C locale as used by
XI::toLower (LibXPUInfo_Util.cpp lines 28-48). -/
def toLowerChar (c : Char) : Char :=
  if 'A' ≤ c ∧ c ≤ 'Z' then Char.ofNat (c.toNat + 32) else c

/-- Embeds XI::toLower on a string (both the narrow and the wide overload
lower each character in place). -/
def toLowerStr (s : List Char) : List Char :=
  s.map toLowerChar

/-- Character-list version of starts-with, for the substring search. -/
def matchAt : List Char → List Char → Bool
  | [], _ => true
  | _ :: _, [] => false
  | p :: ps, c :: cs => p == c && matchAt ps cs

/-- Embeds basic_string::find(str) != npos: pat occurs contiguously in the
subject. -/
def containsSub (pat : List Char) : List Char → Bool
  | [] => matchAt pat []
  | c :: cs => matchAt pat (c :: cs) || containsSub pat cs

/-- Match test of XPUInfo::getDevice(const char*): the lowered search string
occurs in the lowered device name (WString::find != npos). -/
def nameMatches (lowerMatchStr : List Char) (d : Device) : Bool :=
  containsSub lowerMatchStr (toLowerStr d.name)

/-- Embeds the iteration of XPUInfo::getDevice(const char*) over the device
map (LibXPUInfo.cpp lines 1221-1234): first device, in ascending LUID
order, whose lowered name contains the lowered search string. -/
def getDeviceLoop (lowerMatchStr : List Char) : List (Nat × Device) → Option Device
  | [] => none
  | p :: rest =>
    if nameMatches lowerMatchStr p.2 then some p.2
    else getDeviceLoop lowerMatchStr rest

/-- Embeds XPUInfo::getDevice(const char* inNameSubString). -/
def XPUInfo.getDevice (xi : XPUInfo) (inNameSubString : List Char) : Option Device :=
  getDeviceLoop (toLowerStr inNameSubString) xi.m_Devices

/-! TelemetryItem bit values (LibXPUInfo.h lines 633-650). -/

def TELEMETRYITEM_FREQUENCY : Nat := 1
def TELEMETRYITEM_READ_BW : Nat := 2
def TELEMETRYITEM_WRITE_BW : Nat := 4
def TELEMETRYITEM_GLOBAL_ACTIVITY : Nat := 8
def TELEMETRYITEM_RENDER_COMPUTE_ACTIVITY : Nat := 16
def TELEMETRYITEM_MEDIA_ACTIVITY : Nat := 32
def TELEMETRYITEM_MEMORY_USAGE : Nat := 64
def TELEMETRYITEM_TIMESTAMP_DOUBLE : Nat := 128
def TELEMETRYITEM_FREQUENCY_MEDIA : Nat := 256
def TELEMETRYITEM_FREQUENCY_MEMORY : Nat := 512
def TELEMETRYITEM_SYSTEMMEMORY : Nat := 1024

/-- TelemetryTracker state relevant to the ResultMask evolution: the
tracked device (its current API mask and whether an NVML handle exists),
the accumulated result mask, and the number of appended records (only the
count of m_records matters to the mask logic). -/
structure TelemetryTracker where
  deviceAPIs : Nat
  nvmlHandle : Bool
  m_ResultMask : Nat
  m_records : Nat
  deriving DecidableEq, Repr

/-- Environment of one tick of RecordNow: what each telemetry source
delivers on this tick.  The PDH and Level Zero recorders only write fields
of the TimedRecord, never m_ResultMask, so only their success booleans are
kept; the IGCL booleans are the bSupported flags of the power-telemetry
members. -/
structure TickInput where
  perfInfoOk : Bool
  memUsageCurrent : Nat
  igclOk : Bool
  igclFreqSupported : Bool
  igclBWSupported : Bool
  igclGlobalSupported : Bool
  igclRenderSupported : Bool
  igclMediaSupported : Bool
  pdhOk : Bool
  l0Ok : Bool
  nvmlClockOk : Bool
  nvmlUtilOk : Bool
  deriving DecidableEq, Repr

/-- Embeds TelemetryTracker::RecordMemoryUsage (LibXPUInfo_TelemetryTracker
lines 343-377): when GetPerformanceInfo succeeds the system-memory bit is
OR-ed into m_ResultMask if missing (on ANY tick, not only the first); when
the device memory usage is nonzero, the memory-usage bit is OR-ed in if
missing and the function reports success. -/
def RecordMemoryUsage (t : TelemetryTracker) (inp : TickInput) :
    TelemetryTracker × Bool :=
  let t1 :=
    if inp.perfInfoOk then
      if t.m_ResultMask &&& TELEMETRYITEM_SYSTEMMEMORY = 0 then
        { t with m_ResultMask := t.m_ResultMask ||| TELEMETRYITEM_SYSTEMMEMORY }
      else t
    else t
  if inp.memUsageCurrent ≠ 0 then
    (if t1.m_ResultMask &&& TELEMETRYITEM_MEMORY_USAGE = 0 then
      ({ t1 with m_ResultMask := t1.m_ResultMask ||| TELEMETRYITEM_MEMORY_USAGE }, true)
    else (t1, true))
  else (t1, false)

/-- Embeds TelemetryTracker::RecordIGCL (LibXPUInfo_IGCL.cpp lines
1036-1112): on success it assembles a local resultMask from the current
mask, the double-timestamp bit and one bit per supported counter, and
commits it to m_ResultMask only when no record has been appended yet. -/
def RecordIGCL (t : TelemetryTracker) (inp : TickInput) :
    TelemetryTracker × Bool :=
  let resultMask0 := t.m_ResultMask ||| TELEMETRYITEM_TIMESTAMP_DOUBLE
  if inp.igclOk then
    let rm := ((((resultMask0
      ||| (if inp.igclFreqSupported then TELEMETRYITEM_FREQUENCY else 0))
      ||| (if inp.igclBWSupported then TELEMETRYITEM_READ_BW ||| TELEMETRYITEM_WRITE_BW else 0))
      ||| (if inp.igclGlobalSupported then TELEMETRYITEM_GLOBAL_ACTIVITY else 0))
      ||| (if inp.igclRenderSupported then TELEMETRYITEM_RENDER_COMPUTE_ACTIVITY else 0))
      ||| (if inp.igclMediaSupported then TELEMETRYITEM_MEDIA_ACTIVITY else 0)
    (if t.m_records = 0 then { t with m_ResultMask := rm } else t, true)
  else (t, false)

/-- Embeds TelemetryTracker::RecordNVML (LibXPUInfo_NVML.cpp lines
168-200): with an NVML device handle, each successful query sets its bits
only when no record has been appended yet, and reports success. -/
def RecordNVML (t : TelemetryTracker) (inp : TickInput) :
    TelemetryTracker × Bool :=
  if t.nvmlHandle then
    let r1 :=
      if inp.nvmlClockOk then
        (if t.m_records = 0 then
          ({ t with m_ResultMask := t.m_ResultMask ||| TELEMETRYITEM_FREQUENCY }, true)
        else (t, true))
      else (t, false)
    if inp.nvmlUtilOk then
      (if r1.1.m_records = 0 then
        ({ r1.1 with m_ResultMask := r1.1.m_ResultMask |||
          (TELEMETRYITEM_RENDER_COMPUTE_ACTIVITY ||| TELEMETRYITEM_GLOBAL_ACTIVITY) }, true)
      else (r1.1, true))
    else (r1.1, r1.2)
  else (t, false)

/-- Embeds TelemetryTracker::RecordNow (LibXPUInfo_TelemetryTracker.cpp
lines 379-443) on the full Windows build: DXCore memory recording, IGCL,
PDH (mask-neutral), Level Zero (mask-neutral), NVML, in source order, each
behind its API guard; when any source reported an update a record is
appended. -/
def RecordNow (t : TelemetryTracker) (inp : TickInput) : TelemetryTracker :=
  let r1 := if t.deviceAPIs &&& API_TYPE_DXCORE ≠ 0
    then RecordMemoryUsage t inp else (t, false)
  let r2 := if r1.1.deviceAPIs &&& API_TYPE_IGCL ≠ 0
    then RecordIGCL r1.1 inp else (r1.1, false)
  let b3 := inp.pdhOk
  let b4 := if r2.1.deviceAPIs &&& API_TYPE_LEVELZERO ≠ 0 then inp.l0Ok else false
  let r5 := if r2.1.deviceAPIs &&& API_TYPE_NVML ≠ 0
    then RecordNVML r2.1 inp else (r2.1, false)
  let bUpdate := r1.2 || r2.2 || b3 || b4 || r5.2
  if bUpdate then { r5.1 with m_records := r5.1.m_records + 1 } else r5.1

/-- Mask inclusion: every bit of a is a bit of b. -/
def maskLE (a b : Nat) : Prop :=
  a ||| b = b

/-- Test fixture for the C2 counterexample: a DXCore-only tracked device,
fresh tracker. -/
def trackerStart : TelemetryTracker :=
  ⟨API_TYPE_DXCORE, false, 0, 0⟩

/-- Tick on which only the device memory usage yields a value. -/
def tickMemOnly : TickInput :=
  ⟨false, 1, false, false, false, false, false, false, false, false, false, false⟩

/-- Tick on which system memory info also becomes available. -/
def tickMemAndSys : TickInput :=
  ⟨true, 1, false, false, false, false, false, false, false, false, false, false⟩

/-! JSON snapshot model (LibXPUInfo_JSON.cpp).  A serialized document is
modelled as a typed record per object: every member that Device::serialize
or XPUInfo::serialize always writes is a plain field, members written only
conditionally are Option fields.  The two derived display strings
DriverDateString/InstallDateString (never read back, never compared) and
the CPU/System/Memory/RuntimeVersionInfo objects (not consulted by
JSON::compareXI) are omitted. -/

/-- Members of the dxgiDesc JSON object (serializeDesc,
LibXPUInfo_JSON.cpp lines 300-314). -/
structure DescJson where
  VendorID : Nat
  DeviceID : Nat
  SubSysID : Nat
  Revision : Nat
  DedicatedVideoMemory : Nat
  DedicatedSystemMemory : Nat
  SharedSystemMemory : Nat
  AdapterLuid : Nat
  Flags : Nat
  deriving DecidableEq, Repr

/-- Members of the DriverInfo JSON object (Device::serialize,
LibXPUInfo_JSON.cpp lines 324-344). -/
structure DriverInfoJson where
  DriverDesc : String
  DeviceDesc : String
  DriverVersion : String
  DriverInfSection : String
  DeviceInstanceId : String
  LocationInfo : PCIAddressType
  DriverDate : Nat
  InstallDate : Nat
  deriving DecidableEq, Repr

/-- Members of one device JSON object (Device::serialize,
LibXPUInfo_JSON.cpp lines 316-399). -/
structure DevJson where
  Name : List Char
  AdapterIndex : Nat
  DriverVersion : String
  DriverVersionRaw : Nat
  DriverInfo : Option DriverInfoJson
  devType : Nat
  DedicatedMemory : Nat
  SharedMemory : Nat
  MemoryBandWidthMax : Int
  FreqMaxMHz : Int
  FreqMinMHz : Int
  dxgiDesc : DescJson
  GenerationID : Int
  DeviceIPVersion : Nat
  GenerationName : Option String
  GenerationAPI : Nat
  ComputeUnits : Int
  ComputeUnitsSIMDWidth : Int
  PackageTDP : Int
  validAPIs : Nat
  UMA : Nat
  PCIAddress : PCIAddressType
  PCIDeviceGen : Int
  PCIDeviceWidth : Int
  PCICurrentGen : Int
  PCICurrentWidth : Int
  MediaFreqMaxMHz : Int
  MediaFreqMinMHz : Int
  MemoryFreqMaxMHz : Int
  MemoryFreqMinMHz : Int
  VendorFlags : Nat
  cuda : Option (Int × Int)
  IsHighPerformance : Int
  IsMinimumPower : Int
  IsDetachable : Int
  deriving DecidableEq, Repr

/-- Members of the registry JSON document consulted by compareXI
(XPUInfo::serialize, LibXPUInfo_JSON.cpp lines 65-139). -/
structure XIJson where
  UsedAPIsUI32 : Nat
  Devices : List DevJson
  deriving Repr

/-- UI32 bit pattern of a signed I32 value, as the C++ cast (UI32) does. -/
def castUI32 (i : Int) : Nat :=
  (i % 2 ^ 32).toNat

/-- Embeds serializeDesc (LibXPUInfo_JSON.cpp lines 300-314): every numeric
field of the adapter descriptor, including the raw LUID (noted in the
source as not consistent between processes). -/
def serializeDesc (desc : DXGI_ADAPTER_DESC1) : DescJson :=
  { VendorID := desc.VendorId
    DeviceID := desc.DeviceId
    SubSysID := desc.SubSysId
    Revision := desc.Revision
    DedicatedVideoMemory := desc.DedicatedVideoMemory
    DedicatedSystemMemory := desc.DedicatedSystemMemory
    SharedSystemMemory := desc.SharedSystemMemory
    AdapterLuid := desc.AdapterLuid
    Flags := desc.Flags }

/-- Embeds Device::serialize (LibXPUInfo_JSON.cpp lines 316-399): one JSON
object per device; DriverInfo is written only when the device has one,
GenerationName only when the table lookup yields one, and the two cuda
members only for an nVidia device. -/
def Device.serialize (d : Device) : DevJson :=
  { Name := d.name
    AdapterIndex := d.m_adapterIndex
    DriverVersion := d.driverVersion.GetAsString
    DriverVersionRaw := d.driverVersion.GetAsUI64
    DriverInfo := d.m_props.pDriverInfo.map (fun di =>
      { DriverDesc := di.DriverDesc
        DeviceDesc := di.DeviceDesc
        DriverVersion := di.DriverVersion
        DriverInfSection := di.DriverInfSection
        DeviceInstanceId := di.DeviceInstanceId
        LocationInfo := di.LocationInfo
        DriverDate := di.DriverDate
        InstallDate := di.InstallDate })
    devType := d.m_type
    DedicatedMemory := d.m_props.DedicatedMemorySize
    SharedMemory := d.m_props.SharedMemorySize
    MemoryBandWidthMax := d.m_props.MemoryBandWidthMax
    FreqMaxMHz := d.m_props.FreqMaxMHz
    FreqMinMHz := d.m_props.FreqMinMHz
    dxgiDesc := serializeDesc d.m_props.dxgiDesc
    GenerationID := d.m_props.DeviceGenerationID
    DeviceIPVersion := d.m_props.DeviceIPVersion
    GenerationName := getDeviceGenerationName d.m_props.DeviceGenerationAPI
      (castUI32 d.m_props.DeviceGenerationID)
    GenerationAPI := d.m_props.DeviceGenerationAPI
    ComputeUnits := d.m_props.NumComputeUnits
    ComputeUnitsSIMDWidth := d.m_props.ComputeUnitSIMDWidth
    PackageTDP := d.m_props.PackageTDP
    validAPIs := d.validAPIs
    UMA := d.m_props.UMA
    PCIAddress := d.m_props.PCIAddress
    PCIDeviceGen := d.m_props.PCIDeviceGen
    PCIDeviceWidth := d.m_props.PCIDeviceWidth
    PCICurrentGen := d.m_props.PCICurrentGen
    PCICurrentWidth := d.m_props.PCICurrentWidth
    MediaFreqMaxMHz := d.m_props.MediaFreqMaxMHz
    MediaFreqMinMHz := d.m_props.MediaFreqMinMHz
    MemoryFreqMaxMHz := d.m_props.MemoryFreqMaxMHz
    MemoryFreqMinMHz := d.m_props.MemoryFreqMinMHz
    VendorFlags := d.m_props.VendorFlagsUI32
    cuda := if d.m_props.dxgiDesc.VendorId = kVendorId_nVidia then
        some (d.m_props.cudaComputeCapability_Major, d.m_props.cudaComputeCapability_Minor)
      else none
    IsHighPerformance := d.m_props.IsHighPerformance
    IsMinimumPower := d.m_props.IsMinimumPower
    IsDetachable := d.m_props.IsDetachable }

/-- Embeds the part of XPUInfo::serialize consulted by compareXI
(LibXPUInfo_JSON.cpp lines 65-139): the used-API mask and one object per
device in map (ascending LUID) order. -/
def XPUInfo.serialize (xi : XPUInfo) : XIJson :=
  { UsedAPIsUI32 := xi.m_UsedAPIs
    Devices := xi.m_Devices.map (fun p => p.2.serialize) }

/-- Fields of DeviceProperties as set up by the DeviceProperties
constructor (member initializers of LibXPUInfo.h lines 405-476 plus the
memset of VendorSpecific to -1 in LibXPUInfo.cpp lines 877-881). dxgiDesc
is left indeterminate by the C++ constructor and immediately overwritten by
the Device constructor; it is zeroed here. -/
def DeviceProperties.initial : DeviceProperties :=
  { dxgiDesc := ⟨[], 0, 0, 0, 0, 0, 0, 0, 0, 0⟩
    pDriverInfo := none
    DedicatedMemorySize := 2 ^ 64 - 1
    SharedMemorySize := 2 ^ 64 - 1
    MemoryBandWidthMax := -1
    PCIDeviceGen := -1
    PCIDeviceWidth := -1
    PCICurrentGen := -1
    PCICurrentWidth := -1
    PCIAddress := PCIAddressType.default
    UMA := UMA_UNKNOWN
    FreqMaxMHz := -1
    FreqMinMHz := -1
    DeviceGenerationID := -1
    DeviceIPVersion := 0
    DeviceGenerationAPI := API_TYPE_UNKNOWN
    NumComputeUnits := -1
    ComputeUnitSIMDWidth := -1
    PackageTDP := -1
    MediaFreqMaxMHz := -1
    MediaFreqMinMHz := -1
    MemoryFreqMaxMHz := -1
    MemoryFreqMinMHz := -1
    VendorFlagsUI32 := 0
    cudaComputeCapability_Major := -1
    cudaComputeCapability_Minor := -1
    IsHighPerformance := -1
    IsMinimumPower := -1
    IsDetachable := -1 }

/-- Embeds the Device constructor (LibXPUInfo.cpp lines 831-858) with a
non-null descriptor: copies the descriptor, sets the type, ORs the API into
validAPIs, builds the driver version from the raw value when nonzero and
from the registry lookup on the adapter LUID otherwise (the
DeviceDriverVersion(LUID) constructor, modelled by the environment reg),
and mirrors the two memory sizes out of the descriptor. -/
def Device.ctor (reg : Nat → DeviceDriverVersion) (inIndex : Nat)
    (pDesc : DXGI_ADAPTER_DESC1) (inType : Nat) (inAPI : Nat)
    (rawDriverVerion : Nat) : Device :=
  { m_adapterIndex := inIndex
    m_type := inType
    validAPIs := API_TYPE_UNKNOWN ||| inAPI
    driverVersion := if rawDriverVerion = 0 then reg pDesc.AdapterLuid
      else DeviceDriverVersion.ofRaw rawDriverVerion
    m_props := { DeviceProperties.initial with
      dxgiDesc := pDesc
      DedicatedMemorySize := pDesc.DedicatedVideoMemory
      SharedMemorySize := pDesc.SharedSystemMemory } }

/-- Embeds deserializeDesc (LibXPUInfo_JSON.cpp lines 202-225): rebuilds
the adapter descriptor from the dxgiDesc object, with the Description
wcsncpy-ed (at most 128 wide characters) from the device Name member. -/
def deserializeDesc (dj : DevJson) : DXGI_ADAPTER_DESC1 :=
  { Description := dj.Name.take 128
    VendorId := dj.dxgiDesc.VendorID
    DeviceId := dj.dxgiDesc.DeviceID
    SubSysId := dj.dxgiDesc.SubSysID
    Revision := dj.dxgiDesc.Revision
    DedicatedVideoMemory := dj.dxgiDesc.DedicatedVideoMemory
    DedicatedSystemMemory := dj.dxgiDesc.DedicatedSystemMemory
    SharedSystemMemory := dj.dxgiDesc.SharedSystemMemory
    AdapterLuid := dj.dxgiDesc.AdapterLuid
    Flags := dj.dxgiDesc.Flags }

/-- Embeds Device::deserialize (LibXPUInfo_JSON.cpp lines 227-296).  The
five has_value-guarded members (Name, AdapterIndex, dxgiDesc, Type,
validAPIs, DriverVersionRaw) are always written by Device::serialize, so
the guard always passes on a serialized document and the function is total
here; the constructed device then has its property bag filled from the
remaining members (DedicatedMemory/SharedMemory are NOT read back: the
constructor has already derived them from the descriptor). -/
def Device.deserialize (reg : Nat → DeviceDriverVersion) (dj : DevJson) : Device :=
  let desc := deserializeDesc dj
  let newDev := Device.ctor reg dj.AdapterIndex desc dj.devType
    (dj.validAPIs ||| API_TYPE_DESERIALIZED) dj.DriverVersionRaw
  { newDev with m_props := { newDev.m_props with
      pDriverInfo := dj.DriverInfo.map (fun di =>
        { DriverDesc := di.DriverDesc
          DeviceDesc := di.DeviceDesc
          DriverVersion := di.DriverVersion
          DriverInfSection := di.DriverInfSection
          DeviceInstanceId := di.DeviceInstanceId
          LocationInfo := di.LocationInfo
          DriverDate := di.DriverDate
          InstallDate := di.InstallDate })
      FreqMaxMHz := dj.FreqMaxMHz
      FreqMinMHz := dj.FreqMinMHz
      DeviceGenerationID := dj.GenerationID
      DeviceIPVersion := dj.DeviceIPVersion
      DeviceGenerationAPI := dj.GenerationAPI
      NumComputeUnits := dj.ComputeUnits
      ComputeUnitSIMDWidth := dj.ComputeUnitsSIMDWidth
      PackageTDP := dj.PackageTDP
      UMA := dj.UMA
      PCIAddress := dj.PCIAddress
      PCICurrentGen := dj.PCICurrentGen
      PCICurrentWidth := dj.PCICurrentWidth
      PCIDeviceGen := dj.PCIDeviceGen
      PCIDeviceWidth := dj.PCIDeviceWidth
      VendorFlagsUI32 := dj.VendorFlags
      cudaComputeCapability_Major :=
        if desc.VendorId = kVendorId_nVidia then (dj.cuda.map Prod.fst).getD (-1)
        else newDev.m_props.cudaComputeCapability_Major
      cudaComputeCapability_Minor :=
        if desc.VendorId = kVendorId_nVidia then (dj.cuda.map Prod.snd).getD (-1)
        else newDev.m_props.cudaComputeCapability_Minor
      MemoryBandWidthMax := dj.MemoryBandWidthMax } }

/-- Embeds std::map::emplace on the LUID-keyed device map: ordered insert
that keeps an existing entry with the same key. -/
def mapEmplace : List (Nat × Device) → Nat → Device → List (Nat × Device)
  | [], k, v => [(k, v)]
  | (k0, v0) :: rest, k, v =>
    if k < k0 then (k, v) :: (k0, v0) :: rest
    else if k = k0 then (k0, v0) :: rest
    else (k0, v0) :: mapEmplace rest k v

/-- Embeds the part of XPUInfo::deserialize consulted by compareXI
(LibXPUInfo_JSON.cpp lines 141-200): the used-API mask is taken verbatim
from the document, and each device object is deserialized and emplaced
under its (restored) LUID. -/
def XPUInfo.deserialize (reg : Nat → DeviceDriverVersion) (xj : XIJson) : XPUInfo :=
  { m_UsedAPIs := xj.UsedAPIsUI32
    m_Devices := xj.Devices.foldl (fun m dj =>
      let devPtr := Device.deserialize reg dj
      mapEmplace m devPtr.getLUID devPtr) [] }

/-- Embeds operator==(DXGI_ADAPTER_DESC1) (LibXPUInfo_JSON.cpp lines
611-630): every field except the LUID, the Description by wcscmp. -/
def descEq (l r : DXGI_ADAPTER_DESC1) : Bool :=
  l.Description == r.Description && l.VendorId == r.VendorId &&
  l.DeviceId == r.DeviceId && l.SubSysId == r.SubSysId &&
  l.Revision == r.Revision && l.DedicatedVideoMemory == r.DedicatedVideoMemory &&
  l.DedicatedSystemMemory == r.DedicatedSystemMemory &&
  l.SharedSystemMemory == r.SharedSystemMemory && l.Flags == r.Flags

/-- Embeds operator==(DriverInfo) (LibXPUInfo_JSON.cpp lines 632-648). -/
def driverInfoEq (l r : DriverInfo) : Bool :=
  l.DriverDesc == r.DriverDesc && l.DeviceDesc == r.DeviceDesc &&
  l.DriverVersion == r.DriverVersion && l.DriverInfSection == r.DriverInfSection &&
  l.DeviceInstanceId == r.DeviceInstanceId && l.LocationInfo == r.LocationInfo &&
  l.DriverDate == r.DriverDate && l.InstallDate == r.InstallDate

/-- Embeds DeviceProperties::operator== (LibXPUInfo_JSON.cpp lines
650-684): the listed scalar fields, then the DriverInfo only when the left
side has one. -/
def propsEq (l r : DeviceProperties) : Bool :=
  if descEq l.dxgiDesc r.dxgiDesc && l.DedicatedMemorySize == r.DedicatedMemorySize &&
      l.SharedMemorySize == r.SharedMemorySize &&
      l.MemoryBandWidthMax == r.MemoryBandWidthMax &&
      l.PCIDeviceGen == r.PCIDeviceGen && l.PCIDeviceWidth == r.PCIDeviceWidth &&
      l.PCICurrentGen == r.PCICurrentGen && l.PCICurrentWidth == r.PCICurrentWidth &&
      l.PCIAddress == r.PCIAddress && l.UMA == r.UMA &&
      l.DeviceGenerationID == r.DeviceGenerationID &&
      l.DeviceGenerationAPI == r.DeviceGenerationAPI &&
      l.NumComputeUnits == r.NumComputeUnits &&
      l.ComputeUnitSIMDWidth == r.ComputeUnitSIMDWidth &&
      l.PackageTDP == r.PackageTDP && l.VendorFlagsUI32 == r.VendorFlagsUI32 then
    match l.pDriverInfo with
    | some ldi =>
      match r.pDriverInfo with
      | some rdi => driverInfoEq ldi rdi
      | none => false
    | none => true
  else false

/-- UI32 value of ~API_TYPE_DESERIALIZED, as used by Device::operator== and
compareXI. -/
def NOT_API_TYPE_DESERIALIZED : Nat := 0xFFFFFBFF

/-- Embeds Device::operator== (LibXPUInfo_JSON.cpp lines 686-700): type,
adapter index, the API mask with the provenance flag masked out of the
right side, both driver-version pointers set with equal raw values, and
the property bags. -/
def deviceEq (l r : Device) : Bool :=
  l.m_type == r.m_type && l.m_adapterIndex == r.m_adapterIndex &&
  l.validAPIs == (r.validAPIs &&& NOT_API_TYPE_DESERIALIZED) &&
  l.driverVersion.GetAsUI64 == r.driverVersion.GetAsUI64 &&
  propsEq l.m_props r.m_props

/-- Embeds XPUInfo::getDeviceByIndex (LibXPUInfo.cpp lines 1236-1246):
first device in map order with the given adapter index. -/
def getDeviceByIndex : List (Nat × Device) → Nat → Option Device
  | [], _ => none
  | p :: rest, i =>
    if p.2.m_adapterIndex = i then some p.2 else getDeviceByIndex rest i

/-- Embeds JSON::compareXI (LibXPUInfo_JSON.cpp lines 717-746): used-API
masks modulo the provenance flag, device counts, then every device of the
left registry against the right-registry device with the same adapter
index (a failed index lookup dereferences a null DevicePtr in the C++ and
is modelled as a mismatch). -/
def compareXI (pXI pXID : XPUInfo) : Bool :=
  let refAPIs := pXI.m_UsedAPIs
  let desAPIs := pXID.m_UsedAPIs &&& NOT_API_TYPE_DESERIALIZED
  if refAPIs ≠ desAPIs then false
  else if pXI.m_Devices.length ≠ pXID.m_Devices.length then false
  else pXI.m_Devices.all (fun p =>
    match getDeviceByIndex pXID.m_Devices p.2.m_adapterIndex with
    | some d => deviceEq p.2 d
    | none => false)

/-- Registry environment with no matching adapter entry: the
DeviceDriverVersion(LUID) constructor returns an invalid version with raw
value 0. -/
def regEmpty : Nat → DeviceDriverVersion :=
  fun _ => ⟨0, false⟩

/-- Per-device reachability invariant used by the round-trip theorem: the
map key is the device LUID; the two memory sizes mirror the descriptor (as
the only writes, in the Device constructor, leave them); the name fits the
128-wide Description buffer; the raw driver version is a UI64, and when it
is zero the registry lookup that deserialization re-runs also yields zero
(as it did when the live device was built); and the API mask is a UI32
without the provenance flag. -/
def DeviceInv (reg : Nat → DeviceDriverVersion) (p : Nat × Device) : Prop :=
  p.1 = p.2.getLUID ∧
  p.2.m_props.DedicatedMemorySize = p.2.m_props.dxgiDesc.DedicatedVideoMemory ∧
  p.2.m_props.SharedMemorySize = p.2.m_props.dxgiDesc.SharedSystemMemory ∧
  p.2.name.length ≤ 128 ∧
  p.2.driverVersion.GetAsUI64 < 2 ^ 64 ∧
  (p.2.driverVersion.GetAsUI64 = 0 → (reg p.2.getLUID).GetAsUI64 = 0) ∧
  p.2.validAPIs &&& API_TYPE_DESERIALIZED = 0 ∧
  p.2.validAPIs < 2 ^ 32

/-- Counterexample fixture: a device whose DedicatedMemorySize does not
mirror dxgiDesc.DedicatedVideoMemory. -/
def cxDevice : Device :=
  ⟨0, 1, API_TYPE_DXCORE, DeviceDriverVersion.ofRaw 5,
    { DeviceProperties.initial with
        dxgiDesc := ⟨"gpu".toList, kVendorId_Intel, 0, 0, 0, 1, 0, 0, 7, 0⟩
        DedicatedMemorySize := 12345
        SharedMemorySize := 0 }⟩

/-- Counterexample fixture registry holding only cxDevice. -/
def cxXI : XPUInfo :=
  ⟨API_TYPE_DXCORE, [(7, cxDevice)]⟩

/-! Theorems. -/

/-- Helper for C7: the downward scan over the first n rows returns the name
of the highest-index matching row, i.e. the first match in the reversed
prefix. -/
theorem scanGenTableDown_eq_reverse_find (table : List GenName) (key : GenName → Nat)
    (id : Nat) :
    ∀ n, n ≤ table.length →
      scanGenTableDown table key id n =
        (((table.take n).reverse.find? (fun r => key r == id)).map GenName.name) := by
  intro n
  induction n with
  | zero => intro _; rfl
  | succ m ih =>
    intro h
    have hm : m < table.length := Nat.lt_of_succ_le h
    have htake : (List.take (m + 1) table).reverse =
        table[m] :: (List.take m table).reverse := by
      rw [List.take_succ, List.getElem?_eq_getElem hm]
      simp
    simp only [scanGenTableDown, List.getElem?_eq_getElem hm, htake]
    by_cases hkey : key table[m] = id
    · simp [List.find?_cons_of_pos, hkey]
    · rw [List.find?_cons_of_neg _ (by simpa using hkey), if_neg hkey,
        ih (Nat.le_of_lt hm)]

/-- C4: each of the three per-field merge rules is idempotent: applying the
rule twice with the same incoming value produces the same destination as
applying it once, for every destination value, prior value and incoming
value. -/
theorem mergeRules_idempotent :
    ∀ dst isVal src : Int,
      updateIfNotZero (updateIfNotZero dst src) src = updateIfNotZero dst src ∧
      updateIfDstNotSet (updateIfDstNotSet dst src) src = updateIfDstNotSet dst src ∧
      updateIfDstVal (updateIfDstVal dst isVal src) isVal src = updateIfDstVal dst isVal src := by
  intro dst isVal src
  refine ⟨?_, ?_, ?_⟩ <;>
    simp only [updateIfNotZero, updateIfDstNotSet, updateIfDstVal] <;>
    split_ifs <;> simp_all

/-- C5 counterexample: the claim says GetMax().GetAsUI64() equals the
all-ones 64-bit value, but the sentinel is constructed from
XI::UI64(0xffffffff), so its raw value is the all-ones 32-bit value
instead. -/
theorem getMax_not_allOnes64 :
    DeviceDriverVersion.GetMax.GetAsUI64 ≠ 2 ^ 64 - 1 := by decide

/-- C5 amended: GetMax() and GetMin() are sentinel versions whose packed raw
values are 0xffffffff (all ones in the low 32 bits, which hold the release
and build fields consulted by CompareGE) and zero respectively, and both
are valid. -/
theorem getMaxMin_sentinel_values :
    DeviceDriverVersion.GetMax.GetAsUI64 = 0xffffffff ∧
    DeviceDriverVersion.GetMin.GetAsUI64 = 0 ∧
    DeviceDriverVersion.GetMax.mValid = true ∧
    DeviceDriverVersion.GetMin.mValid = true := by decide

/-- C6 counterexample: the claim says invoking the comparison with an
invalid operand raises a fatal error instead of returning a boolean, but
CompareGE performs no validity check: on two invalid versions it simply
returns a boolean result (true here, since both raw fields are zero). -/
theorem compareGE_returns_on_invalid :
    (DeviceDriverVersion.mk 0 false).CompareGE (DeviceDriverVersion.mk 0 false) = true := by
  decide

/-- C6 amended: the validity requirement lives in InRange, not CompareGE:
InRange raises a fatal error through the error-handler hook exactly when the
version itself or either range endpoint is invalid, and returns a boolean
result (built from the unchecked CompareGE) only when all three are
valid. -/
theorem inRange_validity_gate :
    (∀ v r, (∃ e, DeviceDriverVersion.InRange v r = .error e) ↔
      (v.mValid = false ∨ r.1.mValid = false ∨ r.2.mValid = false)) ∧
    (∀ v r, v.mValid = true → r.1.mValid = true → r.2.mValid = true →
      DeviceDriverVersion.InRange v r =
        .ok (v.CompareGE r.1 && r.2.CompareGE v)) := by
  constructor
  · intro v r
    cases hv : v.mValid
    · simp [DeviceDriverVersion.InRange, hv]
    · cases h1 : r.1.mValid
      · simp [DeviceDriverVersion.InRange, hv, h1]
      · cases h2 : r.2.mValid
        · simp [DeviceDriverVersion.InRange, hv, h1, h2]
        · simp only [DeviceDriverVersion.InRange, hv, h1, h2, Bool.not_true]
          constructor
          · rintro ⟨e, he⟩
            split_ifs at he <;> simp_all
          · rintro (h | h | h) <;> simp_all
  · intro v r hv h1 h2
    simp only [DeviceDriverVersion.InRange, hv, h1, h2, Bool.not_true, Bool.false_eq_true,
      if_false]
    cases hc : (v.CompareGE r.1 && r.2.CompareGE v) <;> simp [hc]

/-- C6 witness: InRange on an invalid version against a valid range is an
error, and InRange on valid operands returns an ok result. -/
theorem inRange_validity_gate_witness :
    (∃ e, DeviceDriverVersion.InRange ⟨0, false⟩ (⟨0, true⟩, ⟨0, true⟩) = .error e) ∧
    DeviceDriverVersion.InRange ⟨5, true⟩ (⟨0, true⟩, ⟨9, true⟩) =
      .ok ((DeviceDriverVersion.mk 5 true).CompareGE ⟨0, true⟩ &&
        (DeviceDriverVersion.mk 9 true).CompareGE ⟨5, true⟩) :=
  ⟨(inRange_validity_gate.1 ⟨0, false⟩ (⟨0, true⟩, ⟨0, true⟩)).mpr (Or.inl rfl),
    inRange_validity_gate.2 ⟨5, true⟩ (⟨0, true⟩, ⟨9, true⟩) rfl rfl rfl⟩

/-- C8: parsing the 4-group version string 31.0.101.5186 yields a valid
version whose raw value packs the four decimal groups into the four 16-bit
words from high to low, and printing it returns exactly the original
string. -/
theorem fromString_print_roundtrip :
    DeviceDriverVersion.FromString "31.0.101.5186" =
      some (DeviceDriverVersion.ofRaw (31 * 2 ^ 48 + 101 * 2 ^ 16 + 5186)) ∧
    (DeviceDriverVersion.FromString "31.0.101.5186").map DeviceDriverVersion.mValid =
      some true ∧
    (DeviceDriverVersion.FromString "31.0.101.5186").map DeviceDriverVersion.GetAsString =
      some "31.0.101.5186" := by
  refine ⟨by decide, by decide, by decide⟩

/-- C9: countNumChar does not terminate on every input: on a string that
begins with the separator, find returns the current scan position, the loop
makes no progress, and no amount of fuel completes it, so
FromString(".5") runs forever (modelled as none). -/
theorem countNumChar_stuck_on_leading_dot :
    (∀ fuel numMatch, countNumCharLoop '.' ".5".toList fuel numMatch 0 = none) ∧
    DeviceDriverVersion.FromString ".5" = none := by
  constructor
  · intro fuel numMatch
    induction fuel with
    | zero => rfl
    | succ f ih => simpa [countNumCharLoop, strFindFrom] using ih
  · rfl

/-- C7: for every generation id the lookup returns the name of the
highest-index matching table row (the first match in the reversed table),
both in the legacy counter id space (DX11 Intel perf-counter / SetupAPI)
and in the packed ip-version space (OpenCL / Level Zero); concretely, for
the duplicated id 0x24 the later-appended Alder Lake S row shadows the
earlier Raptor Lake S row. -/
theorem getDeviceGenerationName_last_match :
    ∀ id : Nat,
      getDeviceGenerationName API_TYPE_DX11_INTEL_PERF_COUNTER id =
        ((S_GenNameMap.reverse.find? (fun r => r.gen == id)).map GenName.name) ∧
      getDeviceGenerationName API_TYPE_SETUPAPI id =
        ((S_GenNameMap.reverse.find? (fun r => r.gen == id)).map GenName.name) ∧
      getDeviceGenerationName API_TYPE_OPENCL id =
        ((S_GenNameMap.reverse.find? (fun r => r.ipVersion == id)).map GenName.name) ∧
      getDeviceGenerationName API_TYPE_LEVELZERO id =
        ((S_GenNameMap.reverse.find? (fun r => r.ipVersion == id)).map GenName.name) ∧
      getDeviceGenerationName API_TYPE_SETUPAPI 0x24 = some "Alder Lake S" := by
  intro id
  have h1 := scanGenTableDown_eq_reverse_find S_GenNameMap GenName.gen id
    S_GenNameMap.length (le_refl _)
  have h2 := scanGenTableDown_eq_reverse_find S_GenNameMap GenName.ipVersion id
    S_GenNameMap.length (le_refl _)
  rw [List.take_length] at h1 h2
  refine ⟨?_, ?_, ?_, ?_, by decide⟩ <;>
    simp [getDeviceGenerationName, API_TYPE_DX11_INTEL_PERF_COUNTER, API_TYPE_SETUPAPI,
      API_TYPE_OPENCL, API_TYPE_LEVELZERO, h1, h2]

/-- C3: the finalize pass is a single map over the registered devices that
replaces only the UMA classification, and only when it was still
UMA_UNKNOWN: dedicated ≤ 256 MB together with shared ≥ 2 GB gives
UMA_INTEGRATED, otherwise dedicated ≥ 2 GB gives NONUMA_DISCRETE, otherwise
the classification stays UMA_UNKNOWN; a device whose classification was
already set, and every other field of every device (captured by the record
update touching nothing but UMA), is left unchanged. -/
theorem finalInitDXGI_sets_only_unknown_uma :
    ∀ devs : List (Nat × Device),
      finalInitDXGI devs =
        devs.map (fun p =>
          (p.1, { p.2 with m_props := { p.2.m_props with UMA := umaClassOfClaim p.2 } })) := by
  intro devs
  simp only [finalInitDXGI]
  apply List.map_congr_left
  intro p _
  by_cases h1 : p.2.m_props.UMA = UMA_UNKNOWN
  · by_cases h2 : p.2.m_props.dxgiDesc.DedicatedVideoMemory ≤ 256 * 1024 * 1024 ∧
        p.2.m_props.dxgiDesc.SharedSystemMemory ≥ 2 * 1024 * 1024 * 1024
    · simp [h1, h2, umaClassOfClaim]
    · by_cases h3 : p.2.m_props.dxgiDesc.DedicatedVideoMemory ≥ 2 * 1024 * 1024 * 1024
      · simp [h1, h2, h3, umaClassOfClaim]
      · have hcl : umaClassOfClaim p.2 = UMA_UNKNOWN := by
          simp [umaClassOfClaim, h1, h2, h3]
        rw [if_pos h1, if_neg h2, if_neg h3, hcl, ← h1]
  · have hcl : umaClassOfClaim p.2 = p.2.m_props.UMA := by
      simp [umaClassOfClaim, h1]
    rw [if_neg h1, hcl]

/-- Helper for C10: the lookup loop over a key-sorted association list
returns the entry with the smallest key among those whose device name
matches, and none exactly when no entry matches. -/
theorem getDeviceLoop_min (ls : List Char) :
    ∀ devs : List (Nat × Device), devs.Pairwise (fun a b => a.1 < b.1) →
      (getDeviceLoop ls devs = none → ∀ p ∈ devs, nameMatches ls p.2 = false) ∧
      (∀ d, getDeviceLoop ls devs = some d →
        ∃ k, (k, d) ∈ devs ∧ nameMatches ls d = true ∧
          ∀ p ∈ devs, nameMatches ls p.2 = true → k ≤ p.1) := by
  intro devs
  induction devs with
  | nil =>
    intro _
    constructor
    · intro _ p hp
      exact absurd hp (List.not_mem_nil p)
    · intro d hd
      simp [getDeviceLoop] at hd
  | cons q rest ih =>
    intro hpw
    rw [List.pairwise_cons] at hpw
    obtain ⟨hq, hrest⟩ := hpw
    by_cases hm : nameMatches ls q.2 = true
    · constructor
      · intro hnone
        simp [getDeviceLoop, hm] at hnone
      · intro d hd
        simp only [getDeviceLoop, hm, if_true, ite_true, Option.some.injEq] at hd
        refine ⟨q.1, ?_, ?_, ?_⟩
        · rw [← hd]
          exact List.mem_cons.mpr (Or.inl rfl)
        · rw [← hd]; exact hm
        · intro p hp _
          rcases List.mem_cons.mp hp with h | h
          · rw [h]
          · exact Nat.le_of_lt (hq p h)
    · have hm0 : nameMatches ls q.2 = false := by
        simpa using hm
      have hskip : getDeviceLoop ls (q :: rest) = getDeviceLoop ls rest := by
        simp [getDeviceLoop, hm0]
      obtain ⟨ihnone, ihsome⟩ := ih hrest
      constructor
      · intro hnone p hp
        rw [hskip] at hnone
        rcases List.mem_cons.mp hp with h | h
        · rw [h]; exact hm0
        · exact ihnone hnone p h
      · intro d hd
        rw [hskip] at hd
        obtain ⟨k, hkmem, hkm, hmin⟩ := ihsome d hd
        refine ⟨k, List.mem_cons_of_mem _ hkmem, hkm, ?_⟩
        intro p hp hmatch
        rcases List.mem_cons.mp hp with h | h
        · rw [h] at hmatch
          rw [hmatch] at hm0
          cases hm0
        · exact hmin p h hmatch

/-- C10: over a registry whose device map is sorted by ascending 64-bit
LUID (the std::map invariant), name-substring lookup is the deterministic
function returning the device with the numerically smallest LUID among all
devices whose lower-cased name contains the lower-cased search string, and
a null pointer (none) exactly when no device matches. -/
theorem getDevice_substring_min_luid :
    ∀ (xi : XPUInfo) (s : List Char),
      xi.m_Devices.Pairwise (fun a b => a.1 < b.1) →
      (xi.getDevice s = none →
        ∀ p ∈ xi.m_Devices, nameMatches (toLowerStr s) p.2 = false) ∧
      (∀ d, xi.getDevice s = some d →
        ∃ k, (k, d) ∈ xi.m_Devices ∧ nameMatches (toLowerStr s) d = true ∧
          ∀ p ∈ xi.m_Devices, nameMatches (toLowerStr s) p.2 = true → k ≤ p.1) :=
  fun xi s h => getDeviceLoop_min (toLowerStr s) xi.m_Devices h

/-- Test fixture: a minimal device with the given name, LUID and adapter
index. -/
def mkTestDevice (nm : List Char) (luid index : Nat) : Device :=
  ⟨index, 1, 64, ⟨0, false⟩,
    ⟨⟨nm, 0, 0, 0, 0, 0, 0, 0, luid, 0⟩, none, 0, 0, 0, 0, 0, 0, 0,
      PCIAddressType.default, 0, 0, 0, 0, 0, 0, 0, 0, 0, 0, 0, 0, 0, 0, 0, 0, 0, 0, 0⟩⟩

/-- Test fixture registry for the C10 witness: two devices whose names both
contain the search string, LUIDs 5 and 9. -/
def xiLookupTest : XPUInfo :=
  ⟨0, [(5, mkTestDevice "Intel Arc A770".toList 5 0),
       (9, mkTestDevice "Arc B580".toList 9 1)]⟩

/-- C10 witness: on the concrete sorted two-device registry, the lookup for
the string arc returns the LUID-5 device: it matches and its key is minimal
among the matching entries. -/
theorem getDevice_substring_min_luid_witness :
    ∃ k, (k, mkTestDevice "Intel Arc A770".toList 5 0) ∈ xiLookupTest.m_Devices ∧
      nameMatches (toLowerStr "Arc".toList) (mkTestDevice "Intel Arc A770".toList 5 0) = true ∧
      ∀ p ∈ xiLookupTest.m_Devices,
        nameMatches (toLowerStr "Arc".toList) p.2 = true → k ≤ p.1 :=
  (getDevice_substring_min_luid xiLookupTest "Arc".toList
      (by simp [xiLookupTest, List.pairwise_cons])).2
    (mkTestDevice "Intel Arc A770".toList 5 0) (by decide)

/-- C2 counterexample: on a DXCore device, a first tick on which only the
device memory usage yields a value appends a record with mask
TELEMETRYITEM_MEMORY_USAGE; a later tick on which GetPerformanceInfo
(system memory) becomes available ORs TELEMETRYITEM_SYSTEMMEMORY into
m_ResultMask, so the mask changes after the first successful record,
contradicting the claim. -/
theorem resultMask_changes_after_first_record :
    (RecordNow trackerStart tickMemOnly).m_records = 1 ∧
    (RecordNow trackerStart tickMemOnly).m_ResultMask = TELEMETRYITEM_MEMORY_USAGE ∧
    (RecordNow (RecordNow trackerStart tickMemOnly) tickMemAndSys).m_ResultMask ≠
      (RecordNow trackerStart tickMemOnly).m_ResultMask := by
  decide

/-- Reflexivity of mask inclusion. -/
theorem maskLE_refl (a : Nat) : maskLE a a :=
  Nat.or_self a

/-- A mask is included in itself joined with anything. -/
theorem maskLE_lor_left (a x : Nat) : maskLE a (a ||| x) := by
  rw [maskLE, ← Nat.lor_assoc, Nat.or_self]

/-- Mask inclusion extends along a further join on the right. -/
theorem maskLE_lor_right (a b c : Nat) (h : maskLE a b) : maskLE a (b ||| c) := by
  rw [maskLE, ← Nat.lor_assoc, h]

/-- Transitivity of mask inclusion. -/
theorem maskLE_trans {a b c : Nat} (h1 : maskLE a b) (h2 : maskLE b c) :
    maskLE a c := by
  rw [maskLE, ← h2, ← Nat.lor_assoc, h1]

/-- RecordMemoryUsage leaves the device handle and the record count
alone. -/
theorem RecordMemoryUsage_preserves (t : TelemetryTracker) (inp : TickInput) :
    (RecordMemoryUsage t inp).1.deviceAPIs = t.deviceAPIs ∧
    (RecordMemoryUsage t inp).1.nvmlHandle = t.nvmlHandle ∧
    (RecordMemoryUsage t inp).1.m_records = t.m_records := by
  simp only [RecordMemoryUsage]
  split_ifs <;> simp

/-- RecordMemoryUsage never clears a mask bit. -/
theorem RecordMemoryUsage_mask_mono (t : TelemetryTracker) (inp : TickInput) :
    maskLE t.m_ResultMask (RecordMemoryUsage t inp).1.m_ResultMask := by
  simp only [RecordMemoryUsage]
  split_ifs <;>
    first
      | exact maskLE_refl _
      | exact maskLE_lor_left _ _
      | exact maskLE_lor_right _ _ _ (maskLE_lor_left _ _)

/-- A mask included in the joined summand is absorbed by the join. -/
theorem lor_absorb (m d b : Nat) (h : maskLE d b) : (m ||| d) ||| b = m ||| b := by
  rw [Nat.lor_assoc, h]

/-- A mask is included in anything joined with it on the left. -/
theorem maskLE_right_in_lor (a x : Nat) : maskLE a (x ||| a) := by
  rw [maskLE, Nat.lor_comm x a, ← Nat.lor_assoc, Nat.or_self]

/-- RecordMemoryUsage changes the mask at most in the two memory bits. -/
theorem RecordMemoryUsage_mask_bound (t : TelemetryTracker) (inp : TickInput) :
    (RecordMemoryUsage t inp).1.m_ResultMask |||
      (TELEMETRYITEM_SYSTEMMEMORY ||| TELEMETRYITEM_MEMORY_USAGE) =
    t.m_ResultMask ||| (TELEMETRYITEM_SYSTEMMEMORY ||| TELEMETRYITEM_MEMORY_USAGE) := by
  simp only [RecordMemoryUsage]
  split_ifs <;>
    first
      | rfl
      | rw [lor_absorb _ _ _ (maskLE_right_in_lor _ _),
          lor_absorb _ _ _ (maskLE_lor_left _ _)]
      | rw [lor_absorb _ _ _ (maskLE_lor_left _ _)]
      | rw [lor_absorb _ _ _ (maskLE_right_in_lor _ _)]

/-- RecordIGCL never clears a mask bit. -/
theorem RecordIGCL_mask_mono (t : TelemetryTracker) (inp : TickInput) :
    maskLE t.m_ResultMask (RecordIGCL t inp).1.m_ResultMask := by
  simp only [RecordIGCL]
  split_ifs <;> ((repeat apply maskLE_lor_right); exact maskLE_refl _)

/-- After the first record has been appended, RecordIGCL is a no-op on the
tracker state. -/
theorem RecordIGCL_frozen (t : TelemetryTracker) (inp : TickInput)
    (h : t.m_records ≠ 0) : (RecordIGCL t inp).1 = t := by
  simp only [RecordIGCL]
  split_ifs <;> simp_all

/-- RecordIGCL leaves the device handle and the record count alone. -/
theorem RecordIGCL_preserves (t : TelemetryTracker) (inp : TickInput) :
    (RecordIGCL t inp).1.deviceAPIs = t.deviceAPIs ∧
    (RecordIGCL t inp).1.nvmlHandle = t.nvmlHandle ∧
    (RecordIGCL t inp).1.m_records = t.m_records := by
  simp only [RecordIGCL]
  split_ifs <;> simp

/-- RecordNVML never clears a mask bit. -/
theorem RecordNVML_mask_mono (t : TelemetryTracker) (inp : TickInput) :
    maskLE t.m_ResultMask (RecordNVML t inp).1.m_ResultMask := by
  simp only [RecordNVML]
  split_ifs <;>
    first
      | exact maskLE_refl _
      | exact maskLE_lor_left _ _
      | exact maskLE_lor_right _ _ _ (maskLE_lor_left _ _)

/-- After the first record has been appended, RecordNVML is a no-op on the
tracker state. -/
theorem RecordNVML_frozen (t : TelemetryTracker) (inp : TickInput)
    (h : t.m_records ≠ 0) : (RecordNVML t inp).1 = t := by
  simp only [RecordNVML]
  split_ifs <;> simp_all

/-- One RecordNow tick never clears a mask bit. -/
theorem RecordNow_mask_mono (t : TelemetryTracker) (inp : TickInput) :
    maskLE t.m_ResultMask (RecordNow t inp).m_ResultMask := by
  simp only [RecordNow]
  generalize hA : (if t.deviceAPIs &&& API_TYPE_DXCORE ≠ 0
    then RecordMemoryUsage t inp else (t, false)) = rA
  have m1 : maskLE t.m_ResultMask rA.1.m_ResultMask := by
    rw [← hA]
    split_ifs
    · exact RecordMemoryUsage_mask_mono t inp
    · exact maskLE_refl _
  generalize hB : (if rA.1.deviceAPIs &&& API_TYPE_IGCL ≠ 0
    then RecordIGCL rA.1 inp else (rA.1, false)) = rB
  have m2 : maskLE rA.1.m_ResultMask rB.1.m_ResultMask := by
    rw [← hB]
    split_ifs
    · exact RecordIGCL_mask_mono rA.1 inp
    · exact maskLE_refl _
  generalize hC : (if rB.1.deviceAPIs &&& API_TYPE_NVML ≠ 0
    then RecordNVML rB.1 inp else (rB.1, false)) = rC
  have m3 : maskLE rB.1.m_ResultMask rC.1.m_ResultMask := by
    rw [← hC]
    split_ifs
    · exact RecordNVML_mask_mono rB.1 inp
    · exact maskLE_refl _
  have hfin := maskLE_trans m1 (maskLE_trans m2 m3)
  split_ifs <;> exact hfin

/-- After the first record has been appended, a RecordNow tick can change
the mask only inside the two memory bits written by RecordMemoryUsage. -/
theorem RecordNow_mask_frozen_outside_memory_bits (t : TelemetryTracker)
    (inp : TickInput) (h : 1 ≤ t.m_records) :
    (RecordNow t inp).m_ResultMask |||
      (TELEMETRYITEM_SYSTEMMEMORY ||| TELEMETRYITEM_MEMORY_USAGE) =
    t.m_ResultMask ||| (TELEMETRYITEM_SYSTEMMEMORY ||| TELEMETRYITEM_MEMORY_USAGE) := by
  simp only [RecordNow]
  generalize hA : (if t.deviceAPIs &&& API_TYPE_DXCORE ≠ 0
    then RecordMemoryUsage t inp else (t, false)) = rA
  have hArec : rA.1.m_records = t.m_records := by
    rw [← hA]
    split_ifs
    · exact (RecordMemoryUsage_preserves t inp).2.2
    · rfl
  have hAmask : rA.1.m_ResultMask |||
      (TELEMETRYITEM_SYSTEMMEMORY ||| TELEMETRYITEM_MEMORY_USAGE) =
      t.m_ResultMask ||| (TELEMETRYITEM_SYSTEMMEMORY ||| TELEMETRYITEM_MEMORY_USAGE) := by
    rw [← hA]
    split_ifs
    · exact RecordMemoryUsage_mask_bound t inp
    · rfl
  generalize hB : (if rA.1.deviceAPIs &&& API_TYPE_IGCL ≠ 0
    then RecordIGCL rA.1 inp else (rA.1, false)) = rB
  have hBeq : rB.1 = rA.1 := by
    rw [← hB]
    split_ifs
    · exact RecordIGCL_frozen rA.1 inp (by omega)
    · rfl
  generalize hC : (if rB.1.deviceAPIs &&& API_TYPE_NVML ≠ 0
    then RecordNVML rB.1 inp else (rB.1, false)) = rC
  have hCeq : rC.1 = rB.1 := by
    rw [← hC]
    split_ifs
    · exact RecordNVML_frozen rB.1 inp (by rw [hBeq]; omega)
    · rfl
  split_ifs <;> rw [hCeq, hBeq, hAmask]

/-- C2 amended: the ResultMask is monotone (a tick never clears a bit), and
once the first record has been appended the IGCL and NVML contributions are
frozen: any later tick can change the mask only by adding the
system-memory and device-memory-usage bits, which RecordMemoryUsage still
ORs in whenever those sources start yielding values. -/
theorem resultMask_monotone_and_frozen_outside_memory_bits :
    ∀ (t : TelemetryTracker) (inp : TickInput),
      maskLE t.m_ResultMask (RecordNow t inp).m_ResultMask ∧
      (1 ≤ t.m_records →
        (RecordNow t inp).m_ResultMask |||
          (TELEMETRYITEM_SYSTEMMEMORY ||| TELEMETRYITEM_MEMORY_USAGE) =
        t.m_ResultMask ||| (TELEMETRYITEM_SYSTEMMEMORY ||| TELEMETRYITEM_MEMORY_USAGE)) :=
  fun t inp =>
    ⟨RecordNow_mask_mono t inp,
     fun h => RecordNow_mask_frozen_outside_memory_bits t inp h⟩

/-- C2 witness: concrete application of the amended mask theorem to a
tracker that already appended its first record with mask 64, ticked with an
input on which the system-memory source becomes available. -/
theorem resultMask_monotone_frozen_witness :
    maskLE (TelemetryTracker.mk API_TYPE_DXCORE false 64 1).m_ResultMask
      (RecordNow (TelemetryTracker.mk API_TYPE_DXCORE false 64 1) tickMemAndSys).m_ResultMask ∧
    (RecordNow (TelemetryTracker.mk API_TYPE_DXCORE false 64 1) tickMemAndSys).m_ResultMask |||
      (TELEMETRYITEM_SYSTEMMEMORY ||| TELEMETRYITEM_MEMORY_USAGE) =
    (TelemetryTracker.mk API_TYPE_DXCORE false 64 1).m_ResultMask |||
      (TELEMETRYITEM_SYSTEMMEMORY ||| TELEMETRYITEM_MEMORY_USAGE) :=
  ⟨(resultMask_monotone_and_frozen_outside_memory_bits _ tickMemAndSys).1,
   (resultMask_monotone_and_frozen_outside_memory_bits _ tickMemAndSys).2 (by decide)⟩

/-- C1 counterexample: a registry whose single device has
DedicatedMemorySize 12345 while its descriptor advertises 1 byte of
dedicated video memory.  Serialization writes DedicatedMemory but
deserialization never reads it back (the Device constructor re-derives it
from the descriptor), so the reconstructed device differs in a compared
field and compareXI reports a mismatch, contradicting the claim for
arbitrary populated fields. -/
theorem snapshot_roundtrip_counterexample :
    compareXI cxXI (XPUInfo.deserialize regEmpty (XPUInfo.serialize cxXI)) = false ∧
    cxDevice.m_props.DedicatedMemorySize ≠
      cxDevice.m_props.dxgiDesc.DedicatedVideoMemory := by
  refine ⟨by decide, by decide⟩

/-- The provenance flag is absorbed: masking with ~API_TYPE_DESERIALIZED
removes exactly the bit that was OR-ed in. -/
theorem and_not_des_lor (a : Nat) :
    (a ||| API_TYPE_DESERIALIZED) &&& NOT_API_TYPE_DESERIALIZED =
      a &&& NOT_API_TYPE_DESERIALIZED := by
  apply Nat.eq_of_testBit_eq
  intro i
  simp only [Nat.testBit_and, Nat.testBit_lor, API_TYPE_DESERIALIZED,
    NOT_API_TYPE_DESERIALIZED]
  by_cases h : i = 10
  · subst h
    have h1 : (1024 : Nat).testBit 10 = true := by decide
    have h2 : (4294966271 : Nat).testBit 10 = false := by decide
    rw [h1, h2]
    simp
  · have h1024 : (1024 : Nat).testBit i = false := by
      rw [show (1024 : Nat) = 2 ^ 10 from by norm_num, Nat.testBit_two_pow]
      simpa using fun he => h he.symm
    rw [h1024]
    simp

/-- A UI32 mask without the provenance flag is unchanged by masking with
~API_TYPE_DESERIALIZED. -/
theorem and_not_des_self (a : Nat) (h10 : a &&& API_TYPE_DESERIALIZED = 0)
    (h32 : a < 2 ^ 32) : a &&& NOT_API_TYPE_DESERIALIZED = a := by
  have hbit10 : a.testBit 10 = false := by
    have h := Nat.and_two_pow a 10
    norm_num at h
    rw [show API_TYPE_DESERIALIZED = 1024 from rfl] at h10
    rw [h10] at h
    rcases hb : a.testBit 10
    · rfl
    · rw [hb] at h
      simp at h
  apply Nat.eq_of_testBit_eq
  intro i
  rw [Nat.testBit_and]
  by_cases hi : i < 32
  · by_cases hI : i = 10
    · subst hI
      rw [hbit10]
      simp
    · have hc : (NOT_API_TYPE_DESERIALIZED).testBit i = true := by
        rw [show NOT_API_TYPE_DESERIALIZED = 4294966271 from rfl]
        interval_cases i <;> first | decide | (exact absurd rfl hI)
      rw [hc]
      simp
  · have ha : a.testBit i = false :=
      Nat.testBit_lt_two_pow
        (lt_of_lt_of_le h32 (Nat.pow_le_pow_right (by norm_num) (le_of_not_lt hi)))
    rw [ha]
    simp

/-- Combined API-mask restoration used by the device round trip. -/
theorem api_mask_roundtrip (a : Nat) (h10 : a &&& API_TYPE_DESERIALIZED = 0)
    (h32 : a < 2 ^ 32) :
    (API_TYPE_UNKNOWN ||| (a ||| API_TYPE_DESERIALIZED)) &&&
      NOT_API_TYPE_DESERIALIZED = a := by
  rw [show API_TYPE_UNKNOWN = 0 from rfl, Nat.zero_or, and_not_des_lor,
    and_not_des_self a h10 h32]

/-- Reflexivity of the descriptor comparison. -/
theorem descEq_refl (x : DXGI_ADAPTER_DESC1) : descEq x x = true := by
  simp [descEq]

/-- Reflexivity of the DriverInfo comparison. -/
theorem driverInfoEq_refl (x : DriverInfo) : driverInfoEq x x = true := by
  simp [driverInfoEq]

/-- Per-device round trip: under the constructor-maintained invariants, a
device compares equal (Device::operator==) to the deserialization of its
serialization. -/
theorem deviceEq_roundtrip (reg : Nat → DeviceDriverVersion) (d : Device)
    (hded : d.m_props.DedicatedMemorySize = d.m_props.dxgiDesc.DedicatedVideoMemory)
    (hsh : d.m_props.SharedMemorySize = d.m_props.dxgiDesc.SharedSystemMemory)
    (hname : d.name.length ≤ 128)
    (hver64 : d.driverVersion.GetAsUI64 < 2 ^ 64)
    (hver0 : d.driverVersion.GetAsUI64 = 0 → (reg d.getLUID).GetAsUI64 = 0)
    (hapi10 : d.validAPIs &&& API_TYPE_DESERIALIZED = 0)
    (hapi32 : d.validAPIs < 2 ^ 32) :
    deviceEq d (Device.deserialize reg d.serialize) = true := by
  have htake : (d.name).take 128 = d.name := List.take_of_length_le hname
  have hdesc : (Device.deserialize reg d.serialize).m_props.dxgiDesc =
      d.m_props.dxgiDesc := by
    show ({ d.m_props.dxgiDesc with Description := d.name.take 128 } :
      DXGI_ADAPTER_DESC1) = d.m_props.dxgiDesc
    rw [htake]
    rfl
  have hdi2 : (Device.deserialize reg d.serialize).m_props.pDriverInfo =
      d.m_props.pDriverInfo := by
    show Option.map (fun di => (⟨di.DriverDesc, di.DeviceDesc, di.DriverVersion,
        di.DriverInfSection, di.DeviceInstanceId, di.LocationInfo, di.DriverDate,
        di.InstallDate⟩ : DriverInfo))
      (Option.map (fun di => (⟨di.DriverDesc, di.DeviceDesc, di.DriverVersion,
        di.DriverInfSection, di.DeviceInstanceId, di.LocationInfo, di.DriverDate,
        di.InstallDate⟩ : DriverInfoJson)) d.m_props.pDriverInfo) = d.m_props.pDriverInfo
    cases d.m_props.pDriverInfo <;> rfl
  have hapi := api_mask_roundtrip d.validAPIs hapi10 hapi32
  have hver : (Device.deserialize reg d.serialize).driverVersion.GetAsUI64 =
      d.driverVersion.GetAsUI64 := by
    show (if d.driverVersion.GetAsUI64 = 0 then reg d.getLUID
      else DeviceDriverVersion.ofRaw d.driverVersion.GetAsUI64).GetAsUI64 =
      d.driverVersion.GetAsUI64
    by_cases hv : d.driverVersion.GetAsUI64 = 0
    · rw [if_pos hv, hver0 hv, hv]
    · rw [if_neg hv]
      show d.driverVersion.GetAsUI64 % 2 ^ 64 = d.driverVersion.GetAsUI64
      exact Nat.mod_eq_of_lt hver64
  simp only [deviceEq, Bool.and_eq_true, beq_iff_eq]
  refine ⟨⟨⟨⟨rfl, rfl⟩, ?_⟩, ?_⟩, ?_⟩
  · exact (congrArg (fun x => x &&& NOT_API_TYPE_DESERIALIZED) rfl).trans hapi |>.symm
  · exact hver.symm
  · simp only [propsEq]
    rw [hdi2, if_pos]
    · cases hdi : d.m_props.pDriverInfo with
      | none => rfl
      | some di => exact driverInfoEq_refl di
    · rw [hdesc]
      simp only [Bool.and_eq_true, beq_iff_eq]
      refine ⟨⟨⟨⟨⟨⟨⟨⟨⟨⟨⟨⟨⟨⟨⟨descEq_refl _, hded⟩, hsh⟩, rfl⟩, rfl⟩, rfl⟩,
        rfl⟩, rfl⟩, rfl⟩, rfl⟩, rfl⟩, rfl⟩, rfl⟩, rfl⟩, rfl⟩, rfl⟩

/-- The adapter LUID survives the round trip (it is serialized raw and
copied back into the descriptor). -/
theorem getLUID_roundtrip (reg : Nat → DeviceDriverVersion) (d : Device) :
    (Device.deserialize reg d.serialize).getLUID = d.getLUID := rfl

/-- The adapter index survives the round trip. -/
theorem adapterIndex_roundtrip (reg : Nat → DeviceDriverVersion) (d : Device) :
    (Device.deserialize reg d.serialize).m_adapterIndex = d.m_adapterIndex := rfl

/-- Emplacing a key greater than every key in the map appends at the
end. -/
theorem mapEmplace_append (m : List (Nat × Device)) (k : Nat) (v : Device)
    (h : ∀ p ∈ m, p.1 < k) : mapEmplace m k v = m ++ [(k, v)] := by
  induction m with
  | nil => rfl
  | cons q rest ih =>
    obtain ⟨k0, v0⟩ := q
    have hq : k0 < k := h (k0, v0) (List.mem_cons_self _ _)
    simp only [mapEmplace]
    rw [if_neg (by omega), if_neg (by omega),
      ih (fun p hp => h p (List.mem_cons_of_mem _ hp))]
    rfl

/-- Folding emplace over the serialized devices of a key-sorted registry
reproduces the association list, with each device replaced by its round
trip. -/
theorem foldl_emplace_roundtrip (reg : Nat → DeviceDriverVersion) :
    ∀ (xs : List (Nat × Device)) (acc : List (Nat × Device)),
      xs.Pairwise (fun a b => a.1 < b.1) →
      (∀ p ∈ xs, p.1 = p.2.getLUID) →
      (∀ q ∈ acc, ∀ p ∈ xs, q.1 < p.1) →
      xs.foldl (fun m p => mapEmplace m (Device.deserialize reg p.2.serialize).getLUID
        (Device.deserialize reg p.2.serialize)) acc =
      acc ++ xs.map (fun p => (p.1, Device.deserialize reg p.2.serialize)) := by
  intro xs
  induction xs with
  | nil =>
    intro acc _ _ _
    simp
  | cons p rest ih =>
    intro acc hpw hkey hacc
    rw [List.foldl_cons]
    have hk : (Device.deserialize reg p.2.serialize).getLUID = p.1 := by
      rw [getLUID_roundtrip]
      exact (hkey p (List.mem_cons_self _ _)).symm
    rw [hk, mapEmplace_append acc p.1 _
      (fun q hq => hacc q hq p (List.mem_cons_self _ _))]
    rw [List.pairwise_cons] at hpw
    rw [ih (acc ++ [(p.1, Device.deserialize reg p.2.serialize)]) hpw.2
      (fun q hq => hkey q (List.mem_cons_of_mem _ hq)) ?_]
    · simp
    · intro q hq r hr
      rcases List.mem_append.mp hq with h | h
      · exact hacc q h r (List.mem_cons_of_mem _ hr)
      · have hq1 : q.1 = p.1 := by
          rcases List.mem_singleton.mp h with rfl
          rfl
        rw [hq1]
        exact hpw.1 r hr

/-- With pairwise-distinct adapter indices, index lookup in the
round-tripped map finds exactly the round trip of the device with that
index. -/
theorem getDeviceByIndex_roundtrip (reg : Nat → DeviceDriverVersion) :
    ∀ (xs : List (Nat × Device)),
      xs.Pairwise (fun a b => a.2.m_adapterIndex ≠ b.2.m_adapterIndex) →
      ∀ p ∈ xs,
        getDeviceByIndex (xs.map (fun q => (q.1, Device.deserialize reg q.2.serialize)))
          p.2.m_adapterIndex = some (Device.deserialize reg p.2.serialize) := by
  intro xs
  induction xs with
  | nil =>
    intro _ p hp
    exact absurd hp (List.not_mem_nil p)
  | cons q rest ih =>
    intro hpw p hp
    rw [List.pairwise_cons] at hpw
    simp only [List.map_cons, getDeviceByIndex]
    rcases List.mem_cons.mp hp with h | h
    · rw [h, if_pos (adapterIndex_roundtrip reg q.2)]
    · rw [if_neg ?_]
      · exact ih hpw.2 p h
      · rw [adapterIndex_roundtrip reg q.2]
        exact hpw.1 p h

/-- C1 amended: the snapshot round trip holds for every well-formed live
registry: the used-API mask is a UI32 without the provenance flag, the
device map is keyed by device LUID in ascending order with
pairwise-distinct adapter indices, and every device satisfies the
constructor-maintained invariant DeviceInv (memory sizes mirroring the
descriptor, name within the 128-character buffer, UI64 raw driver version
consistent with the registry environment, UI32 API mask without the
provenance flag).  Then compareXI(live, deserialize(serialize(live)))
reports zero mismatches: used-API masks agree modulo the provenance flag,
device counts agree, and every live device compares equal to the
reconstructed device with the same adapter index, with the provenance flag
and the raw adapter LUID excluded from the comparison. -/
theorem snapshot_roundtrip_compareXI (reg : Nat → DeviceDriverVersion) (xi : XPUInfo)
    (hu10 : xi.m_UsedAPIs &&& API_TYPE_DESERIALIZED = 0)
    (hu32 : xi.m_UsedAPIs < 2 ^ 32)
    (hsorted : xi.m_Devices.Pairwise (fun a b => a.1 < b.1))
    (hidx : xi.m_Devices.Pairwise (fun a b => a.2.m_adapterIndex ≠ b.2.m_adapterIndex))
    (hdev : ∀ p ∈ xi.m_Devices, DeviceInv reg p) :
    compareXI xi (XPUInfo.deserialize reg (XPUInfo.serialize xi)) = true := by
  have hdevs : (XPUInfo.deserialize reg (XPUInfo.serialize xi)).m_Devices =
      xi.m_Devices.map (fun p => (p.1, Device.deserialize reg p.2.serialize)) := by
    show ((xi.m_Devices.map (fun p => p.2.serialize)).foldl (fun m dj =>
      mapEmplace m (Device.deserialize reg dj).getLUID (Device.deserialize reg dj))
      []) = _
    rw [List.foldl_map]
    exact foldl_emplace_roundtrip reg xi.m_Devices [] hsorted
      (fun p hp => (hdev p hp).1) (by simp)
  have hAPIs : (XPUInfo.deserialize reg (XPUInfo.serialize xi)).m_UsedAPIs &&&
      NOT_API_TYPE_DESERIALIZED = xi.m_UsedAPIs :=
    and_not_des_self xi.m_UsedAPIs hu10 hu32
  simp only [compareXI]
  rw [hAPIs, if_neg (by exact fun h => h rfl), hdevs, List.length_map,
    if_neg (by exact fun h => h rfl)]
  rw [List.all_eq_true]
  intro p hp
  rw [getDeviceByIndex_roundtrip reg xi.m_Devices hidx p hp]
  obtain ⟨-, hded, hsh, hname, hver64, hver0, hapi10, hapi32⟩ := hdev p hp
  exact deviceEq_roundtrip reg p.2 hded hsh hname hver64 hver0 hapi10 hapi32

/-- Round-trip witness fixture: a well-formed one-device registry. -/
def rtDevice : Device :=
  ⟨0, 1, API_TYPE_DXCORE, DeviceDriverVersion.ofRaw 5,
    { DeviceProperties.initial with
        dxgiDesc := ⟨"gpu".toList, kVendorId_Intel, 2, 3, 4, 100, 0, 200, 7, 0⟩
        DedicatedMemorySize := 100
        SharedMemorySize := 200
        pDriverInfo := some ⟨"dd", "devd", "31.0.101.5186", "inf", "id", ⟨1, 2, 3, 4⟩, 99, 98⟩
        UMA := 1
        DeviceGenerationID := 36
        DeviceGenerationAPI := API_TYPE_SETUPAPI }⟩

/-- Round-trip witness registry. -/
def rtXI : XPUInfo :=
  ⟨API_TYPE_DXCORE, [(7, rtDevice)]⟩

/-- C1 witness: the amended round-trip theorem applied to the concrete
one-device registry rtXI, all hypotheses discharged by evaluation. -/
theorem snapshot_roundtrip_compareXI_witness :
    compareXI rtXI (XPUInfo.deserialize regEmpty (XPUInfo.serialize rtXI)) = true :=
  snapshot_roundtrip_compareXI regEmpty rtXI (by decide) (by decide)
    (by simp [rtXI]) (by simp [rtXI])
    (by
      intro p hp
      have hp2 : p = (7, rtDevice) := by
        have hmem : p ∈ [(7, rtDevice)] := hp
        simpa using hmem
      subst hp2
      exact ⟨rfl, rfl, rfl, by decide, by decide, by decide, by decide, by decide⟩)
